import Mathlib

/-!
Verification of the authentication session lifecycle of a React Native
starter application.  The development shallowly embeds the auth store
(`src/store/authSlice.ts`), the secure-storage credential vault
(`src/services/storage/SecureStorage.ts`), the lifecycle operations of the
`useAuth` hook (`src/hooks/useAuth.ts`) and of the auth view model
(`src/screens/auth/AuthViewModel.ts`), and the API error interceptor
(`src/services/api/interceptors.ts`).  Stateful TypeScript code becomes
explicit state passing over a `World` of (session state, vault); the remote
identity service is an oracle parameter, and the gateway calls an operation
performs are returned as an explicit trace.
-/

/-- A user profile record, as in the `User` interface of the model types
(`id`, `email`, `firstName`, `lastName`, optional profile fields,
`emailVerified`, timestamps).  `Date | string` timestamps are embedded as
strings. -/
structure User where
  id : String
  email : String
  firstName : String
  lastName : String
  username : Option String
  avatar : Option String
  bio : Option String
  phone : Option String
  website : Option String
  location : Option String
  emailVerified : Bool
  createdAt : String
  updatedAt : String
deriving DecidableEq, Repr

/-- The state fields of the zustand auth store slice (`authSlice.ts`):
`user`, `accessToken`, `refreshToken`, `isAuthenticated`, `isLoading`,
`isInitialized`, `error`.  TypeScript `T | null` becomes `Option T`. -/
structure AuthState where
  user : Option User
  accessToken : Option String
  refreshToken : Option String
  isAuthenticated : Bool
  isLoading : Bool
  isInitialized : Bool
  error : Option String
deriving DecidableEq, Repr

/-- JavaScript truthiness of a nullable string: `null` and the empty string
are falsy, every other string is truthy. -/
def isTruthy : Option String → Bool
  | none => false
  | some s => s != ""

/-- JavaScript `a || b` on nullable strings: yields `a` when `a` is truthy,
otherwise `b`. -/
def jsOrValue (a b : Option String) : Option String :=
  if isTruthy a then a else b

/-- The `initialState` object of `authSlice.ts`. -/
def initialState : AuthState :=
  { user := none
    accessToken := none
    refreshToken := none
    isAuthenticated := false
    isLoading := false
    isInitialized := false
    error := none }

/-- The store action `setAuth(data)`: stores the user and both tokens, sets
`isAuthenticated: true`, `isLoading: false`, `error: null`. -/
def setAuth (u : User) (accessToken refreshToken : String) (s : AuthState) : AuthState :=
  { s with
    user := some u
    accessToken := some accessToken
    refreshToken := some refreshToken
    isAuthenticated := true
    isLoading := false
    error := none }

/-- The store action `clearAuth()`: nulls the user and both tokens, sets
`isAuthenticated: false`, `isLoading: false`, `error: null`.  It does not
touch `isInitialized`. -/
def clearAuth (s : AuthState) : AuthState :=
  { s with
    user := none
    accessToken := none
    refreshToken := none
    isAuthenticated := false
    isLoading := false
    error := none }

/-- The store action `setUser(user)`. -/
def setUser (u : User) (s : AuthState) : AuthState :=
  { s with user := some u }

/-- The store action `setTokens(accessToken, refreshToken)`: both arguments
are non-null strings in the source signature; no other field changes. -/
def setTokens (accessToken refreshToken : String) (s : AuthState) : AuthState :=
  { s with accessToken := some accessToken, refreshToken := some refreshToken }

/-- The store action `setLoading(isLoading)`. -/
def setLoading (b : Bool) (s : AuthState) : AuthState :=
  { s with isLoading := b }

/-- The store action `setError(error)`. -/
def setError (e : Option String) (s : AuthState) : AuthState :=
  { s with error := e }

/-- The store action `setInitialized(isInitialized)`. -/
def setInitialized (b : Bool) (s : AuthState) : AuthState :=
  { s with isInitialized := b }

/-- The store action `initialize()` of `authSlice.ts` (named `storeInit`
here because `initialize` is a Lean keyword): returns unchanged when
already initialized; otherwise sets `isLoading: true`, sets
`isAuthenticated` to the truthiness of `accessToken && refreshToken`, and
in the `finally` block sets `isLoading: false, isInitialized: true`. -/
def storeInit (s : AuthState) : AuthState :=
  if s.isInitialized then s
  else
    let s1 := setLoading true s
    let s2 :=
      if isTruthy s1.accessToken && isTruthy s1.refreshToken then
        { s1 with isAuthenticated := true }
      else
        { s1 with isAuthenticated := false }
    { s2 with isLoading := false, isInitialized := true }

/-- The store action `reset()`: replaces the whole state with
`initialState`. -/
def reset (_s : AuthState) : AuthState :=
  initialState

/-- One invocation of a store action together with its arguments, covering
every action exposed by the auth slice. -/
inductive StoreOp where
  | setAuthOp (u : User) (accessToken refreshToken : String)
  | clearAuthOp
  | setUserOp (u : User)
  | setTokensOp (accessToken refreshToken : String)
  | setLoadingOp (b : Bool)
  | setErrorOp (e : Option String)
  | setInitializedOp (b : Bool)
  | storeInitOp
  | resetOp
deriving DecidableEq, Repr

/-- Dispatch a store action to its embedding. -/
def applyOp : StoreOp → AuthState → AuthState
  | .setAuthOp u a r, s => setAuth u a r s
  | .clearAuthOp, s => clearAuth s
  | .setUserOp u, s => setUser u s
  | .setTokensOp a r, s => setTokens a r s
  | .setLoadingOp b, s => setLoading b s
  | .setErrorOp e, s => setError e s
  | .setInitializedOp b, s => setInitialized b s
  | .storeInitOp, s => storeInit s
  | .resetOp, s => reset s

/-- The token invariant of the session data model: `isAuthenticated`
implies both tokens are non-null. -/
def tokenInvariant (s : AuthState) : Prop :=
  s.isAuthenticated = true → s.accessToken ≠ none ∧ s.refreshToken ≠ none

instance (s : AuthState) : Decidable (tokenInvariant s) := by
  unfold tokenInvariant; infer_instance

/-- The credential vault (`SecureStorage`) as an association list from
string keys to string values. -/
abbrev Vault := List (String × String)

/-- `getSecureValue(key)`: the value stored under `key`, or `null` when the
key is absent. -/
def getSecureValue : Vault → String → Option String
  | [], _ => none
  | (k, x) :: rest, key => if k = key then some x else getSecureValue rest key

/-- `deleteSecureValue(key)`: removes every record stored under `key`. -/
def deleteSecureValue : Vault → String → Vault
  | [], _ => []
  | (k, x) :: rest, key =>
    if k = key then deleteSecureValue rest key
    else (k, x) :: deleteSecureValue rest key

/-- `setSecureValue(key, value)`: overwrites the record stored under
`key`. -/
def setSecureValue (v : Vault) (key value : String) : Vault :=
  (key, value) :: deleteSecureValue v key

theorem getSecureValue_deleteSecureValue_self (v : Vault) (key : String) :
    getSecureValue (deleteSecureValue v key) key = none := by
  induction v with
  | nil => rfl
  | cons kv rest ih =>
    obtain ⟨k, x⟩ := kv
    by_cases h : k = key <;> simp [deleteSecureValue, getSecureValue, h, ih]

theorem getSecureValue_deleteSecureValue_other (v : Vault) (key key' : String)
    (h : key' ≠ key) :
    getSecureValue (deleteSecureValue v key) key' = getSecureValue v key' := by
  induction v with
  | nil => rfl
  | cons kv rest ih =>
    obtain ⟨k, x⟩ := kv
    by_cases hk : k = key
    · subst hk
      have hne : ¬ k = key' := fun hc => h hc.symm
      simp [deleteSecureValue, getSecureValue, hne, ih]
    · by_cases hk' : k = key'
      · subst hk'
        simp [deleteSecureValue, getSecureValue, hk, ih]
      · simp [deleteSecureValue, getSecureValue, hk, hk', ih]

theorem getSecureValue_setSecureValue_self (v : Vault) (key value : String) :
    getSecureValue (setSecureValue v key value) key = some value := by
  simp [setSecureValue, getSecureValue]

theorem getSecureValue_setSecureValue_other (v : Vault) (key key' value : String)
    (h : key' ≠ key) :
    getSecureValue (setSecureValue v key value) key' = getSecureValue v key' := by
  have hk : ¬ key = key' := fun hc => h hc.symm
  simp [setSecureValue, getSecureValue, hk,
    getSecureValue_deleteSecureValue_other v key key' h]

theorem deleteSecureValue_deleteSecureValue_self (v : Vault) (key : String) :
    deleteSecureValue (deleteSecureValue v key) key = deleteSecureValue v key := by
  induction v with
  | nil => rfl
  | cons kv rest ih =>
    obtain ⟨k, x⟩ := kv
    by_cases h : k = key <;> simp [deleteSecureValue, h, ih]

theorem deleteSecureValue_comm (v : Vault) (k1 k2 : String) :
    deleteSecureValue (deleteSecureValue v k1) k2
      = deleteSecureValue (deleteSecureValue v k2) k1 := by
  induction v with
  | nil => rfl
  | cons kv rest ih =>
    obtain ⟨k, x⟩ := kv
    by_cases h1 : k = k1
    · subst h1
      by_cases h2 : k = k2
      · subst h2
        simp [deleteSecureValue, ih]
      · simp [deleteSecureValue, h2, ih]
    · by_cases h2 : k = k2
      · subst h2
        simp [deleteSecureValue, h1, ih]
      · simp [deleteSecureValue, h1, h2, ih]

/-- Vault key for the access token (`ACCESS_TOKEN_KEY` in `useAuth.ts`,
`SecureStorageKeys.ACCESS_TOKEN`). -/
def ACCESS_TOKEN_KEY : String := "access_token"

/-- Vault key for the refresh token. -/
def REFRESH_TOKEN_KEY : String := "refresh_token"

/-- Vault key for the access-token expiry instant (epoch ms, stored as a
decimal string). -/
def TOKEN_EXPIRY_KEY : String := "token_expiry"

/-- Vault key for the biometric credential bundle
(`BIOMETRIC_CREDENTIALS_KEY` in `AuthViewModel.ts`). -/
def BIOMETRIC_CREDENTIALS_KEY : String := "biometric_credentials"

/-- Vault key for the remembered login email (`REMEMBER_ME_KEY` in
`AuthViewModel.ts`). -/
def REMEMBER_ME_KEY : String := "remember_me_email"

/-- `REFRESH_THRESHOLD` of `useAuth.ts`: 5 minutes in milliseconds. -/
def REFRESH_THRESHOLD : Int := 5 * 60 * 1000

/-- The shape returned by the identity service for login/refresh
(`AuthResponse` in the model types): user, token pair, and the absolute
expiry instant of the access token in epoch milliseconds. -/
structure AuthResponse where
  user : User
  accessToken : String
  refreshToken : String
  expiresAt : Int
deriving DecidableEq, Repr

/-- Oracle for the remote identity service (`AuthService`): the outcome of
a login call per credentials, the outcome of a refresh call per presented
refresh token (`Except.error` carries the rejection message), and whether
the best-effort remote logout call succeeds (its outcome is ignored by the
embedded code, mirroring the source's catch blocks). -/
structure Gateway where
  loginOutcome : String → String → Except String AuthResponse
  refreshOutcome : String → Except String AuthResponse
  logoutOk : Bool

/-- One remote identity-service call, recorded in the trace an operation
returns. -/
inductive GwCall where
  | loginCall (email : String)
  | refreshCall (token : String)
  | logoutNotify
deriving DecidableEq, Repr

/-- The mutable world a lifecycle operation acts on: the auth store state
and the secure-storage vault. -/
structure World where
  session : AuthState
  vault : Vault
deriving DecidableEq, Repr

/-- Accumulate the decimal digits at the head of the character list, as
JavaScript `parseInt` does, stopping at the first non-digit. -/
def parseIntAux : List Char → Nat → Nat
  | [], acc => acc
  | c :: rest, acc =>
    if c.isDigit then parseIntAux rest (acc * 10 + (c.toNat - 48)) else acc

/-- JavaScript `parseInt(s, 10)`: an optional sign followed by at least one
digit; trailing non-digits are ignored; `none` stands for `NaN`. -/
def parseIntJs (s : String) : Option Int :=
  match s.data with
  | [] => none
  | '-' :: rest =>
    match rest with
    | [] => none
    | c :: _ => if c.isDigit then some (-(parseIntAux rest 0 : Int)) else none
  | c :: _ => if c.isDigit then some ((parseIntAux s.data 0 : Int)) else none

namespace UseAuth

/-- `shouldRefreshToken()` of `useAuth.ts`: reads the stored expiry; when
absent (or unparsable, the `NaN` comparison) the result is `false`;
otherwise the result is `expiry - now < REFRESH_THRESHOLD`.  The function
only reads, so the world is returned unchanged. -/
def shouldRefreshToken (w : World) (now : Int) : Bool × World :=
  match getSecureValue w.vault TOKEN_EXPIRY_KEY with
  | none => (false, w)
  | some expiryString =>
    match parseIntJs expiryString with
    | none => (false, w)
    | some expiry => (decide (expiry - now < REFRESH_THRESHOLD), w)

/-- `logout()` of `useAuth.ts`: best-effort remote logout (outcome caught
and ignored), then in the `finally` block deletes the `access_token`,
`refresh_token` and `token_expiry` vault entries and calls `clearAuth()`.
No other vault key is touched. -/
def logout (_gw : Gateway) (w : World) : World × List GwCall :=
  let v1 := deleteSecureValue
    (deleteSecureValue (deleteSecureValue w.vault ACCESS_TOKEN_KEY) REFRESH_TOKEN_KEY)
    TOKEN_EXPIRY_KEY
  ({ session := clearAuth w.session, vault := v1 }, [GwCall.logoutNotify])

/-- `refreshSession()` of `useAuth.ts`: resolves the current refresh token
as `refreshToken || await getSecureValue(REFRESH_TOKEN_KEY)`; when the
result is falsy it calls `clearAuth()` and returns `false` with no remote
call; otherwise it calls the remote refresh endpoint once — on success it
writes the three token vault entries, calls `setAuth`, and returns `true`;
on failure it awaits `logout()` and returns `false`. -/
def refreshSession (gw : Gateway) (w : World) : Bool × World × List GwCall :=
  match jsOrValue w.session.refreshToken (getSecureValue w.vault REFRESH_TOKEN_KEY) with
  | none => (false, { w with session := clearAuth w.session }, [])
  | some t =>
    if t = "" then (false, { w with session := clearAuth w.session }, [])
    else
      match gw.refreshOutcome t with
      | .ok resp =>
        let v1 := setSecureValue
          (setSecureValue (setSecureValue w.vault ACCESS_TOKEN_KEY resp.accessToken)
            REFRESH_TOKEN_KEY resp.refreshToken)
          TOKEN_EXPIRY_KEY (toString resp.expiresAt)
        (true,
          { session := setAuth resp.user resp.accessToken resp.refreshToken w.session,
            vault := v1 },
          [GwCall.refreshCall t])
      | .error _ =>
        let lw := logout gw w
        (false, lw.1, GwCall.refreshCall t :: lw.2)

/-- `login(email, password)` of `useAuth.ts`: `setLoading(true)`, remote
login; on success writes the three token vault entries then `setAuth`; in
the `finally` block `setLoading(false)`; a failure propagates to the
caller (returned here as `false`) with no other state change. -/
def login (gw : Gateway) (email password : String) (w : World) :
    Bool × World × List GwCall :=
  let s1 := setLoading true w.session
  match gw.loginOutcome email password with
  | .ok resp =>
    let v1 := setSecureValue
      (setSecureValue (setSecureValue w.vault ACCESS_TOKEN_KEY resp.accessToken)
        REFRESH_TOKEN_KEY resp.refreshToken)
      TOKEN_EXPIRY_KEY (toString resp.expiresAt)
    (true,
      { session := setLoading false (setAuth resp.user resp.accessToken resp.refreshToken s1),
        vault := v1 },
      [GwCall.loginCall email])
  | .error _ =>
    (false, { w with session := setLoading false s1 }, [GwCall.loginCall email])

/-- The interleaving in which a `refreshSession()` has already read its
refresh token and issued the remote refresh call, a `logout()` then runs
to completion while that call is in flight, and the refresh call finally
resolves successfully with `resp`, so that the success continuation of
`refreshSession` (the three vault writes and `setAuth`) executes against
the post-logout world.  Each step is the corresponding embedded source
operation; the source has no staleness guard between the `await` and the
continuation. -/
def refreshResolvesAfterLogout (gw : Gateway) (w : World) (resp : AuthResponse) : World :=
  let lw := (logout gw w).1
  let v1 := setSecureValue
    (setSecureValue (setSecureValue lw.vault ACCESS_TOKEN_KEY resp.accessToken)
      REFRESH_TOKEN_KEY resp.refreshToken)
    TOKEN_EXPIRY_KEY (toString resp.expiresAt)
  { session := setAuth resp.user resp.accessToken resp.refreshToken lw.session,
    vault := v1 }

end UseAuth

/-- Opaque encoding of the biometric credential bundle the view model
stores under `biometric_credentials` (`JSON.stringify` of the email and
refresh token in the source; no embedded operation inspects its
contents). -/
def biometricBundle (email refreshToken : String) : String :=
  "bundle:" ++ email ++ ":" ++ refreshToken

namespace AuthViewModel

/-- `logout()` of `AuthViewModel.ts`: best-effort remote logout (outcome
caught and ignored), then in the `finally` block `clearAuth()` and
deletion of the `biometric_credentials` vault entry.  The three token
vault entries are not touched by this logout. -/
def logout (_gw : Gateway) (w : World) : World × List GwCall :=
  ({ session := clearAuth w.session,
     vault := deleteSecureValue w.vault BIOMETRIC_CREDENTIALS_KEY },
   [GwCall.logoutNotify])

/-- `login(email, password, rememberMe)` of `AuthViewModel.ts`:
`setLoading(true)` and `setError(null)` on the store, remote login; on
success `setAuth` and, if `rememberMe`, persists the remembered email and
the biometric bundle (otherwise deletes the remembered email); on failure
`setError` with the failure message and the error propagates (returned
here as `false`); the `finally` block runs `setLoading(false)`. -/
def login (gw : Gateway) (email password : String) (rememberMe : Bool) (w : World) :
    Bool × World × List GwCall :=
  let s1 := setError none (setLoading true w.session)
  match gw.loginOutcome email password with
  | .ok resp =>
    let s2 := setAuth resp.user resp.accessToken resp.refreshToken s1
    let v1 :=
      if rememberMe then
        setSecureValue (setSecureValue w.vault REMEMBER_ME_KEY email)
          BIOMETRIC_CREDENTIALS_KEY (biometricBundle email resp.refreshToken)
      else
        deleteSecureValue w.vault REMEMBER_ME_KEY
    (true, { session := setLoading false s2, vault := v1 }, [GwCall.loginCall email])
  | .error msg =>
    let s2 := setError (some msg) s1
    (false, { w with session := setLoading false s2 }, [GwCall.loginCall email])

end AuthViewModel

/-- A classified API failure (`ApiError` in the source: HTTP status and
message; the optional `code`/`errors` payload fields play no part in the
interceptor). -/
structure ApiError where
  status : Int
  message : String
deriving DecidableEq, Repr

/-- `handleUnauthorizedError` of `interceptors.ts`: on a 401, when the
store holds no (truthy) refresh token, clears the auth state and replaces
the message; otherwise leaves both untouched. -/
def handleUnauthorizedError (s : AuthState) (e : ApiError) : AuthState × ApiError :=
  if isTruthy s.refreshToken then (s, e)
  else (clearAuth s, { e with message := "Session expired. Please sign in again." })

/-- The error interceptor registered by `setupInterceptors`: classifies the
failure by HTTP status, rewriting the message (`m || fallback` keeps a
non-empty existing message for 404/422/default) and, for 401 only,
delegating to `handleUnauthorizedError`. -/
def errorInterceptor (s : AuthState) (e : ApiError) : AuthState × ApiError :=
  if e.status = 401 then handleUnauthorizedError s e
  else if e.status = 403 then
    (s, { e with message := "You do not have permission to perform this action" })
  else if e.status = 404 then
    (s, { e with message := if e.message = "" then "Resource not found" else e.message })
  else if e.status = 422 then
    (s, { e with message := if e.message = "" then "Validation failed" else e.message })
  else if e.status = 429 then
    (s, { e with message := "Too many requests. Please try again later." })
  else if e.status = 500 ∨ e.status = 502 ∨ e.status = 503 then
    (s, { e with message := "Server error. Please try again later." })
  else
    (s, { e with message := if e.message = "" then "An unexpected error occurred" else e.message })

theorem isTruthy_ne_none {o : Option String} (h : isTruthy o = true) : o ≠ none := by
  cases o with
  | none => simp [isTruthy] at h
  | some s => simp

/-- Claim C4: every auth-store action (setAuth, clearAuth, setUser,
setTokens, setLoading, setError, setInitialized, the startup
reconciliation, reset) preserves the invariant that `isAuthenticated`
implies both tokens non-null, and any action that clears a stored token in
a transition also sets `isAuthenticated` to `false` and clears the other
token in that same transition. -/
theorem C4_store_ops_token_invariant (op : StoreOp) (s : AuthState)
    (h : tokenInvariant s) :
    tokenInvariant (applyOp op s) ∧
      (s.accessToken ≠ none → (applyOp op s).accessToken = none →
        (applyOp op s).isAuthenticated = false ∧ (applyOp op s).refreshToken = none) ∧
      (s.refreshToken ≠ none → (applyOp op s).refreshToken = none →
        (applyOp op s).isAuthenticated = false ∧ (applyOp op s).accessToken = none) := by
  cases op with
  | setAuthOp u a r =>
    refine ⟨?_, ?_, ?_⟩ <;> simp [applyOp, setAuth, tokenInvariant]
  | clearAuthOp =>
    refine ⟨?_, ?_, ?_⟩ <;> simp [applyOp, clearAuth, tokenInvariant]
  | setUserOp u =>
    refine ⟨?_, ?_, ?_⟩ <;> simp [applyOp, setUser, tokenInvariant] <;> tauto
  | setTokensOp a r =>
    refine ⟨?_, ?_, ?_⟩ <;> simp [applyOp, setTokens, tokenInvariant]
  | setLoadingOp b =>
    refine ⟨?_, ?_, ?_⟩ <;> simp [applyOp, setLoading, tokenInvariant] <;> tauto
  | setErrorOp e =>
    refine ⟨?_, ?_, ?_⟩ <;> simp [applyOp, setError, tokenInvariant] <;> tauto
  | setInitializedOp b =>
    refine ⟨?_, ?_, ?_⟩ <;> simp [applyOp, setInitialized, tokenInvariant] <;> tauto
  | storeInitOp =>
    by_cases hi : s.isInitialized
    · refine ⟨?_, ?_, ?_⟩ <;> simp [applyOp, storeInit, hi] <;> tauto
    · by_cases ht : isTruthy s.accessToken && isTruthy s.refreshToken
      · have ha := isTruthy_ne_none (by simpa using (Bool.and_eq_true _ _ ▸ ht).1)
        have hr := isTruthy_ne_none (by simpa using (Bool.and_eq_true _ _ ▸ ht).2)
        refine ⟨?_, ?_, ?_⟩ <;>
          simp [applyOp, storeInit, hi, setLoading, ht, tokenInvariant, ha, hr]
      · refine ⟨?_, ?_, ?_⟩ <;>
          simp [applyOp, storeInit, hi, setLoading, ht, tokenInvariant] <;> tauto
  | resetOp =>
    refine ⟨?_, ?_, ?_⟩ <;> simp [applyOp, reset, initialState, tokenInvariant]

theorem C4_store_ops_token_invariant_witness :
    tokenInvariant initialState ∧
      tokenInvariant (applyOp StoreOp.clearAuthOp initialState) :=
  ⟨by decide, (C4_store_ops_token_invariant StoreOp.clearAuthOp initialState (by decide)).1⟩

/-- Claim C6: from any not-yet-initialized state, the startup
reconciliation action terminates initialized and not loading, and the
resulting `isAuthenticated` is `true` exactly when both stored tokens are
present (truthy). -/
theorem C6_storeInit_reconciles (s : AuthState) (h : s.isInitialized = false) :
    (storeInit s).isInitialized = true ∧ (storeInit s).isLoading = false ∧
      ((storeInit s).isAuthenticated = true ↔
        isTruthy s.accessToken = true ∧ isTruthy s.refreshToken = true) := by
  cases ha : isTruthy s.accessToken <;> cases hr : isTruthy s.refreshToken <;>
    simp_all [storeInit, setLoading]

/-- Witness for C6: the two concrete scenarios of the specification —
tokens `"existing-access"`/`"existing-refresh"` give an initialized,
authenticated, not-loading state, and the token-less initial state gives
an initialized, unauthenticated state. -/
theorem C6_storeInit_reconciles_witness :
    (storeInit (setTokens "existing-access" "existing-refresh" initialState)).isInitialized
        = true ∧
      (storeInit (setTokens "existing-access" "existing-refresh" initialState)).isAuthenticated
        = true ∧
      (storeInit (setTokens "existing-access" "existing-refresh" initialState)).isLoading
        = false ∧
      (storeInit initialState).isInitialized = true ∧
      (storeInit initialState).isAuthenticated = false := by
  have h1 := C6_storeInit_reconciles
    (setTokens "existing-access" "existing-refresh" initialState) (by decide)
  have h2 := C6_storeInit_reconciles initialState (by decide)
  refine ⟨h1.1, h1.2.2.mpr (by decide), h1.2.1, h2.1, ?_⟩
  have := h2.2.2
  simp [initialState, isTruthy] at this
  simpa using this

/-- Deleting the three token keys is idempotent as a whole. -/
theorem deleteTokenKeys_idem (v : Vault) :
    deleteSecureValue (deleteSecureValue (deleteSecureValue
        (deleteSecureValue (deleteSecureValue (deleteSecureValue v ACCESS_TOKEN_KEY)
          REFRESH_TOKEN_KEY) TOKEN_EXPIRY_KEY) ACCESS_TOKEN_KEY) REFRESH_TOKEN_KEY)
      TOKEN_EXPIRY_KEY
      = deleteSecureValue (deleteSecureValue (deleteSecureValue v ACCESS_TOKEN_KEY)
          REFRESH_TOKEN_KEY) TOKEN_EXPIRY_KEY := by
  rw [deleteSecureValue_comm _ TOKEN_EXPIRY_KEY ACCESS_TOKEN_KEY,
    deleteSecureValue_comm _ REFRESH_TOKEN_KEY ACCESS_TOKEN_KEY,
    deleteSecureValue_deleteSecureValue_self,
    deleteSecureValue_comm _ TOKEN_EXPIRY_KEY REFRESH_TOKEN_KEY,
    deleteSecureValue_deleteSecureValue_self,
    deleteSecureValue_deleteSecureValue_self]

/-- Claim C9: `clearAuth` is idempotent — clearing an already-cleared
session is a no-op — and a second `logout()` of the hook right after a
first one leaves the world exactly as the first left it, whatever the two
remote outcomes. -/
theorem C9_clear_and_logout_idempotent (s : AuthState) (gw gw' : Gateway) (w : World) :
    clearAuth (clearAuth s) = clearAuth s ∧
      (UseAuth.logout gw' (UseAuth.logout gw w).1).1 = (UseAuth.logout gw w).1 := by
  constructor
  · simp [clearAuth]
  · simp only [UseAuth.logout]
    refine congrArg₂ World.mk ?_ ?_
    · simp [clearAuth]
    · exact deleteTokenKeys_idem w.vault

/-- Claim C5: the refresh predicate of the hook is pure — it returns the
world unchanged on every input — and whenever the vault stores a
`token_expiry` string parsing to `expiresAt`, it returns `true` exactly
when `expiresAt - now` is below the 5-minute `REFRESH_THRESHOLD`. -/
theorem C5_shouldRefreshToken_pure_threshold (w : World) (now expiresAt : Int)
    (str : String)
    (hget : getSecureValue w.vault TOKEN_EXPIRY_KEY = some str)
    (hparse : parseIntJs str = some expiresAt) :
    (∀ (w' : World) (now' : Int), (UseAuth.shouldRefreshToken w' now').2 = w') ∧
      ((UseAuth.shouldRefreshToken w now).1 = true ↔
        expiresAt - now < REFRESH_THRESHOLD) := by
  constructor
  · intro w' now'
    unfold UseAuth.shouldRefreshToken
    split
    · rfl
    · split <;> rfl
  · unfold UseAuth.shouldRefreshToken
    rw [hget]
    simp [hparse]

/-- Witness for C5 at the boundary: with a stored expiry of 1000300000 ms
and now 1000000000 ms (difference exactly 5 minutes) the predicate is
`false`; one millisecond later it is `true`; the world is unchanged. -/
theorem C5_shouldRefreshToken_pure_threshold_witness :
    (UseAuth.shouldRefreshToken ⟨initialState, [(TOKEN_EXPIRY_KEY, "1000300000")]⟩
        1000000000).1 = false ∧
      (UseAuth.shouldRefreshToken ⟨initialState, [(TOKEN_EXPIRY_KEY, "1000300000")]⟩
          1000000001).1 = true ∧
      (UseAuth.shouldRefreshToken ⟨initialState, [(TOKEN_EXPIRY_KEY, "1000300000")]⟩
          1000000000).2 = ⟨initialState, [(TOKEN_EXPIRY_KEY, "1000300000")]⟩ := by
  have h1 := C5_shouldRefreshToken_pure_threshold
    ⟨initialState, [(TOKEN_EXPIRY_KEY, "1000300000")]⟩ 1000000000 1000300000
    "1000300000" (by decide) (by decide)
  have h2 := C5_shouldRefreshToken_pure_threshold
    ⟨initialState, [(TOKEN_EXPIRY_KEY, "1000300000")]⟩ 1000000001 1000300000
    "1000300000" (by decide) (by decide)
  refine ⟨?_, h2.2.mpr (by decide), h1.1 _ _⟩
  have hb := h1.2
  have : ¬ ((1000300000 : Int) - 1000000000 < REFRESH_THRESHOLD) := by decide
  simp only [Bool.not_eq_true] at hb ⊢
  cases hc : (UseAuth.shouldRefreshToken
      ⟨initialState, [(TOKEN_EXPIRY_KEY, "1000300000")]⟩ 1000000000).1 with
  | false => rfl
  | true => exact absurd (hb.mp hc) this

/-- Claim C10: invoking `refreshSession()` with no refresh token in the
session and none stored in the vault clears the session (not
authenticated, tokens null) and returns `false` with no remote
identity-service call. -/
theorem C10_refreshSession_without_token (gw : Gateway) (w : World)
    (hs : w.session.refreshToken = none)
    (hv : getSecureValue w.vault REFRESH_TOKEN_KEY = none) :
    UseAuth.refreshSession gw w
        = (false, { w with session := clearAuth w.session }, []) ∧
      (clearAuth w.session).isAuthenticated = false ∧
      (clearAuth w.session).accessToken = none ∧
      (clearAuth w.session).refreshToken = none := by
  have hres : jsOrValue w.session.refreshToken
      (getSecureValue w.vault REFRESH_TOKEN_KEY) = none := by
    simp [jsOrValue, hs, hv, isTruthy]
  refine ⟨?_, by simp [clearAuth], by simp [clearAuth], by simp [clearAuth]⟩
  unfold UseAuth.refreshSession
  rw [hres]

/-- Witness for C10: the empty world with an unreachable identity service. -/
theorem C10_refreshSession_without_token_witness :
    UseAuth.refreshSession
        ⟨fun _ _ => Except.error "down", fun _ => Except.error "down", true⟩
        ⟨initialState, []⟩
      = (false, ⟨clearAuth initialState, []⟩, []) := by
  have h := C10_refreshSession_without_token
    ⟨fun _ _ => Except.error "down", fun _ => Except.error "down", true⟩
    ⟨initialState, []⟩ rfl rfl
  exact h.1

/-- Claim C7: a failed login leaves the session's `user`, `accessToken`,
`refreshToken` and `isAuthenticated` exactly as they were (and the vault
untouched), in both the hook's `login` and the view model's `login`; the
failure is surfaced to the caller as an unsuccessful outcome. -/
theorem C7_login_failure_frame (gw : Gateway) (email password msg : String)
    (rememberMe : Bool) (w : World)
    (hfail : gw.loginOutcome email password = .error msg) :
    ((UseAuth.login gw email password w).1 = false ∧
      (UseAuth.login gw email password w).2.1.session.user = w.session.user ∧
      (UseAuth.login gw email password w).2.1.session.accessToken
        = w.session.accessToken ∧
      (UseAuth.login gw email password w).2.1.session.refreshToken
        = w.session.refreshToken ∧
      (UseAuth.login gw email password w).2.1.session.isAuthenticated
        = w.session.isAuthenticated ∧
      (UseAuth.login gw email password w).2.1.vault = w.vault) ∧
    ((AuthViewModel.login gw email password rememberMe w).1 = false ∧
      (AuthViewModel.login gw email password rememberMe w).2.1.session.user
        = w.session.user ∧
      (AuthViewModel.login gw email password rememberMe w).2.1.session.accessToken
        = w.session.accessToken ∧
      (AuthViewModel.login gw email password rememberMe w).2.1.session.refreshToken
        = w.session.refreshToken ∧
      (AuthViewModel.login gw email password rememberMe w).2.1.session.isAuthenticated
        = w.session.isAuthenticated ∧
      (AuthViewModel.login gw email password rememberMe w).2.1.vault = w.vault) := by
  constructor
  · unfold UseAuth.login
    rw [hfail]
    simp [setLoading]
  · unfold AuthViewModel.login
    rw [hfail]
    simp [setLoading, setError]

/-- Witness for C7: a rejected login against an authenticated world leaves
its user, tokens and authentication flag in place in both code paths. -/
theorem C7_login_failure_frame_witness :
    ((UseAuth.login
        ⟨fun _ _ => Except.error "Invalid credentials", fun _ => Except.error "x", true⟩
        "a@b.c" "pw"
        ⟨{ initialState with
            accessToken := some "at"
            refreshToken := some "rt"
            isAuthenticated := true }, []⟩).1 = false ∧
      (UseAuth.login
        ⟨fun _ _ => Except.error "Invalid credentials", fun _ => Except.error "x", true⟩
        "a@b.c" "pw"
        ⟨{ initialState with
            accessToken := some "at"
            refreshToken := some "rt"
            isAuthenticated := true }, []⟩).2.1.session.isAuthenticated = true) ∧
    (AuthViewModel.login
        ⟨fun _ _ => Except.error "Invalid credentials", fun _ => Except.error "x", true⟩
        "a@b.c" "pw" false
        ⟨{ initialState with
            accessToken := some "at"
            refreshToken := some "rt"
            isAuthenticated := true }, []⟩).2.1.session.isAuthenticated = true := by
  have h := C7_login_failure_frame
    ⟨fun _ _ => Except.error "Invalid credentials", fun _ => Except.error "x", true⟩
    "a@b.c" "pw" "Invalid credentials" false
    ⟨{ initialState with
        accessToken := some "at"
        refreshToken := some "rt"
        isAuthenticated := true }, []⟩ rfl
  exact ⟨⟨h.1.1, by rw [h.1.2.2.2.2.1]⟩, by rw [h.2.2.2.2.2.1]⟩

/-- After the hook logout's three deletions, the three token entries are
gone and the biometric entry is exactly what it was. -/
theorem logoutVault_entries (v : Vault) :
    getSecureValue (deleteSecureValue (deleteSecureValue (deleteSecureValue v
        ACCESS_TOKEN_KEY) REFRESH_TOKEN_KEY) TOKEN_EXPIRY_KEY) ACCESS_TOKEN_KEY = none ∧
      getSecureValue (deleteSecureValue (deleteSecureValue (deleteSecureValue v
        ACCESS_TOKEN_KEY) REFRESH_TOKEN_KEY) TOKEN_EXPIRY_KEY) REFRESH_TOKEN_KEY = none ∧
      getSecureValue (deleteSecureValue (deleteSecureValue (deleteSecureValue v
        ACCESS_TOKEN_KEY) REFRESH_TOKEN_KEY) TOKEN_EXPIRY_KEY) TOKEN_EXPIRY_KEY = none ∧
      getSecureValue (deleteSecureValue (deleteSecureValue (deleteSecureValue v
          ACCESS_TOKEN_KEY) REFRESH_TOKEN_KEY) TOKEN_EXPIRY_KEY) BIOMETRIC_CREDENTIALS_KEY
        = getSecureValue v BIOMETRIC_CREDENTIALS_KEY := by
  refine ⟨?_, ?_, ?_, ?_⟩
  · rw [getSecureValue_deleteSecureValue_other _ _ _ (by decide),
      getSecureValue_deleteSecureValue_other _ _ _ (by decide),
      getSecureValue_deleteSecureValue_self]
  · rw [getSecureValue_deleteSecureValue_other _ _ _ (by decide),
      getSecureValue_deleteSecureValue_self]
  · rw [getSecureValue_deleteSecureValue_self]
  · rw [getSecureValue_deleteSecureValue_other _ _ _ (by decide),
      getSecureValue_deleteSecureValue_other _ _ _ (by decide),
      getSecureValue_deleteSecureValue_other _ _ _ (by decide)]

/-- Claim C1 (amended): whatever the remote logout outcome, the hook's
`logout()` ends not authenticated with user and tokens null and the
`access_token`, `refresh_token` and `token_expiry` vault entries deleted,
but it leaves the `biometric_credentials` entry exactly as it was; the
view model's `logout()` likewise clears the session and deletes the
`biometric_credentials` entry while leaving the three token entries
exactly as they were. -/
theorem C1_logout_amended (gw : Gateway) (w : World) :
    ((UseAuth.logout gw w).1.session.isAuthenticated = false ∧
      (UseAuth.logout gw w).1.session.user = none ∧
      (UseAuth.logout gw w).1.session.accessToken = none ∧
      (UseAuth.logout gw w).1.session.refreshToken = none ∧
      getSecureValue (UseAuth.logout gw w).1.vault ACCESS_TOKEN_KEY = none ∧
      getSecureValue (UseAuth.logout gw w).1.vault REFRESH_TOKEN_KEY = none ∧
      getSecureValue (UseAuth.logout gw w).1.vault TOKEN_EXPIRY_KEY = none ∧
      getSecureValue (UseAuth.logout gw w).1.vault BIOMETRIC_CREDENTIALS_KEY
        = getSecureValue w.vault BIOMETRIC_CREDENTIALS_KEY) ∧
    ((AuthViewModel.logout gw w).1.session.isAuthenticated = false ∧
      (AuthViewModel.logout gw w).1.session.user = none ∧
      (AuthViewModel.logout gw w).1.session.accessToken = none ∧
      (AuthViewModel.logout gw w).1.session.refreshToken = none ∧
      getSecureValue (AuthViewModel.logout gw w).1.vault BIOMETRIC_CREDENTIALS_KEY
        = none ∧
      getSecureValue (AuthViewModel.logout gw w).1.vault ACCESS_TOKEN_KEY
        = getSecureValue w.vault ACCESS_TOKEN_KEY ∧
      getSecureValue (AuthViewModel.logout gw w).1.vault REFRESH_TOKEN_KEY
        = getSecureValue w.vault REFRESH_TOKEN_KEY ∧
      getSecureValue (AuthViewModel.logout gw w).1.vault TOKEN_EXPIRY_KEY
        = getSecureValue w.vault TOKEN_EXPIRY_KEY) := by
  have h := logoutVault_entries w.vault
  refine ⟨⟨rfl, rfl, rfl, rfl, h.1, h.2.1, h.2.2.1, h.2.2.2⟩,
    rfl, rfl, rfl, rfl, getSecureValue_deleteSecureValue_self _ _,
    getSecureValue_deleteSecureValue_other _ _ _ (by decide),
    getSecureValue_deleteSecureValue_other _ _ _ (by decide),
    getSecureValue_deleteSecureValue_other _ _ _ (by decide)⟩

/-- Claim C1 fails as stated: after the hook's `logout()` (here with the
remote call failing) the vault is not empty — the `biometric_credentials`
entry is still present. -/
theorem C1_biometric_entry_survives_logout :
    getSecureValue
        ((UseAuth.logout
            ⟨fun _ _ => Except.error "down", fun _ => Except.error "down", false⟩
            ⟨initialState,
              [(ACCESS_TOKEN_KEY, "at"), (REFRESH_TOKEN_KEY, "rt"),
                (TOKEN_EXPIRY_KEY, "1000"),
                (BIOMETRIC_CREDENTIALS_KEY, "bundle:me:rt")]⟩).1.vault)
        BIOMETRIC_CREDENTIALS_KEY = some "bundle:me:rt" := by decide

/-- Claim C2 (amended): when the remote refresh call fails,
`refreshSession()` returns `false`, the session ends not authenticated,
the `access_token`, `refresh_token` and `token_expiry` vault entries are
deleted, the `biometric_credentials` entry is exactly what it was (it is
not deleted), and exactly one refresh call was made (the failure is
terminal, with no retry of the refresh itself). -/
theorem C2_refresh_failure_amended (gw : Gateway) (w : World) (t msg : String)
    (hres : jsOrValue w.session.refreshToken (getSecureValue w.vault REFRESH_TOKEN_KEY)
      = some t)
    (ht : t ≠ "")
    (hfail : gw.refreshOutcome t = .error msg) :
    (UseAuth.refreshSession gw w).1 = false ∧
      (UseAuth.refreshSession gw w).2.1.session.isAuthenticated = false ∧
      getSecureValue (UseAuth.refreshSession gw w).2.1.vault ACCESS_TOKEN_KEY = none ∧
      getSecureValue (UseAuth.refreshSession gw w).2.1.vault REFRESH_TOKEN_KEY = none ∧
      getSecureValue (UseAuth.refreshSession gw w).2.1.vault TOKEN_EXPIRY_KEY = none ∧
      getSecureValue (UseAuth.refreshSession gw w).2.1.vault BIOMETRIC_CREDENTIALS_KEY
        = getSecureValue w.vault BIOMETRIC_CREDENTIALS_KEY ∧
      (UseAuth.refreshSession gw w).2.2
        = [GwCall.refreshCall t, GwCall.logoutNotify] := by
  have hstep : UseAuth.refreshSession gw w
      = (false, (UseAuth.logout gw w).1,
          GwCall.refreshCall t :: (UseAuth.logout gw w).2) := by
    unfold UseAuth.refreshSession
    rw [hres]
    simp [ht, hfail]
  have h := logoutVault_entries w.vault
  rw [hstep]
  exact ⟨rfl, rfl, h.1, h.2.1, h.2.2.1, h.2.2.2, rfl⟩

/-- Claim C2 fails as stated: a failed refresh from an authenticated world
whose vault holds a biometric bundle leaves that bundle in the vault. -/
theorem C2_biometric_entry_survives_refresh_failure :
    (UseAuth.refreshSession
        ⟨fun _ _ => Except.error "TokenInvalid", fun _ => Except.error "TokenInvalid",
          true⟩
        ⟨{ initialState with
            accessToken := some "at"
            refreshToken := some "rt"
            isAuthenticated := true },
          [(BIOMETRIC_CREDENTIALS_KEY, "bundle:me:rt")]⟩).1 = false ∧
      getSecureValue
        (UseAuth.refreshSession
          ⟨fun _ _ => Except.error "TokenInvalid", fun _ => Except.error "TokenInvalid",
            true⟩
          ⟨{ initialState with
              accessToken := some "at"
              refreshToken := some "rt"
              isAuthenticated := true },
            [(BIOMETRIC_CREDENTIALS_KEY, "bundle:me:rt")]⟩).2.1.vault
        BIOMETRIC_CREDENTIALS_KEY = some "bundle:me:rt" := by decide

/-- Witness for the amended C2 at a concrete failing refresh. -/
theorem C2_refresh_failure_amended_witness :
    (UseAuth.refreshSession
        ⟨fun _ _ => Except.error "TokenInvalid", fun _ => Except.error "TokenInvalid",
          true⟩
        ⟨{ initialState with
            accessToken := some "at"
            refreshToken := some "rt"
            isAuthenticated := true },
          []⟩).1 = false ∧
      (UseAuth.refreshSession
        ⟨fun _ _ => Except.error "TokenInvalid", fun _ => Except.error "TokenInvalid",
          true⟩
        ⟨{ initialState with
            accessToken := some "at"
            refreshToken := some "rt"
            isAuthenticated := true },
          []⟩).2.2 = [GwCall.refreshCall "rt", GwCall.logoutNotify] := by
  have h := C2_refresh_failure_amended
    ⟨fun _ _ => Except.error "TokenInvalid", fun _ => Except.error "TokenInvalid", true⟩
    ⟨{ initialState with
        accessToken := some "at"
        refreshToken := some "rt"
        isAuthenticated := true },
      []⟩ "rt" "TokenInvalid" (by decide) (by decide) rfl
  exact ⟨h.1, h.2.2.2.2.2.2⟩

/-- Claim C8 (amended): classifying a failed response leaves the auth
state untouched for every non-401 status, and for a 401 when the store
holds a (truthy) refresh token; but a 401 when the store holds no refresh
token clears the auth state immediately, before any refresh attempt. -/
theorem C8_classification_frame_amended (s : AuthState) (e : ApiError) :
    (e.status ≠ 401 → (errorInterceptor s e).1 = s) ∧
      (e.status = 401 → isTruthy s.refreshToken = true → (errorInterceptor s e).1 = s) ∧
      (e.status = 401 → isTruthy s.refreshToken = false →
        (errorInterceptor s e).1 = clearAuth s) := by
  refine ⟨?_, ?_, ?_⟩
  · intro h
    unfold errorInterceptor
    rw [if_neg h]
    split_ifs <;> rfl
  · intro h ht
    unfold errorInterceptor handleUnauthorizedError
    simp [h, ht]
  · intro h ht
    unfold errorInterceptor handleUnauthorizedError
    simp [h, ht]

/-- Claim C8 fails as stated: a 401 classified while the store holds no
refresh token (and has not attempted any refresh) changes the session —
it is cleared on the spot. -/
theorem C8_401_without_refresh_token_clears_session :
    (errorInterceptor { initialState with isLoading := true }
        ⟨401, "Unauthorized"⟩).1 = clearAuth { initialState with isLoading := true } ∧
      (errorInterceptor { initialState with isLoading := true }
        ⟨401, "Unauthorized"⟩).1 ≠ { initialState with isLoading := true } := by decide

/-- Witness for the amended C8: a 500 leaves the state alone, a 401 with a
stored refresh token leaves the state alone, and a 401 without one clears
it. -/
theorem C8_classification_frame_amended_witness :
    (errorInterceptor initialState ⟨500, "oops"⟩).1 = initialState ∧
      (errorInterceptor { initialState with refreshToken := some "rt" } ⟨401, "x"⟩).1
        = { initialState with refreshToken := some "rt" } ∧
      (errorInterceptor initialState ⟨401, "x"⟩).1 = clearAuth initialState :=
  ⟨(C8_classification_frame_amended initialState ⟨500, "oops"⟩).1 (by decide),
    (C8_classification_frame_amended { initialState with refreshToken := some "rt" }
      ⟨401, "x"⟩).2.1 rfl (by decide),
    (C8_classification_frame_amended initialState ⟨401, "x"⟩).2.2 rfl (by decide)⟩

/-- Claim C3: concrete run of the interleaving in which a `logout()`
completes while a successful refresh is in flight.  The embedded source
applies the late refresh result unconditionally, so the final state is
authenticated again — the claim requires `isAuthenticated = false`
(logout wins), and the code yields `true`. -/
theorem C3_late_refresh_reauthenticates :
    (UseAuth.refreshResolvesAfterLogout
          ⟨fun _ _ => Except.error "down",
            fun _ => Except.ok ⟨⟨"1", "test@example.com", "Test", "User", none, none,
              none, none, none, none, true, "2024-01-01", "2024-01-01"⟩,
              "new-access", "new-refresh", 2000000⟩, true⟩
          ⟨{ initialState with
              accessToken := some "at"
              refreshToken := some "rt"
              isAuthenticated := true },
            [(ACCESS_TOKEN_KEY, "at"), (REFRESH_TOKEN_KEY, "rt")]⟩
          ⟨⟨"1", "test@example.com", "Test", "User", none, none, none, none, none,
              none, true, "2024-01-01", "2024-01-01"⟩,
            "new-access", "new-refresh", 2000000⟩).session.isAuthenticated = true ∧
      (UseAuth.refreshResolvesAfterLogout
          ⟨fun _ _ => Except.error "down",
            fun _ => Except.ok ⟨⟨"1", "test@example.com", "Test", "User", none, none,
              none, none, none, none, true, "2024-01-01", "2024-01-01"⟩,
              "new-access", "new-refresh", 2000000⟩, true⟩
          ⟨{ initialState with
              accessToken := some "at"
              refreshToken := some "rt"
              isAuthenticated := true },
            [(ACCESS_TOKEN_KEY, "at"), (REFRESH_TOKEN_KEY, "rt")]⟩
          ⟨⟨"1", "test@example.com", "Test", "User", none, none, none, none, none,
              none, true, "2024-01-01", "2024-01-01"⟩,
            "new-access", "new-refresh", 2000000⟩).session.isAuthenticated ≠ false := by
  refine ⟨rfl, ?_⟩
  decide
